import Mathlib

/-!
Verification development for the `SwrCache` stale-while-revalidate cache
(`src/SwrCache.ts` together with the `attachPromiseMeta` helper).

The TypeScript class is embedded shallowly as an explicit state machine:

* `performance.now()` becomes the `now` field of the state, advanced by
  explicit `tick` steps;
* a `PromiseWithMeta<V>` becomes an identifier into a table of
  `PromiseState`s (`pending` / `fulfilled` / `rejected`); a fulfilled
  value of `undefined` is modelled as `fulfilled none`;
* the `Map<string, CacheEntry>` becomes an association list from keys to
  entry identifiers, with the entry records themselves living in a heap
  (`entries`), so that JavaScript object aliasing — in particular the
  sweep holding references to entry objects that have been replaced in
  the map — is represented faithfully;
* each `async` function is cut at its `await` points: the synchronous
  part up to the first suspension is a function on states, and the
  resumption after an `await` is a pending task (`TaskKind`) that a
  scheduler step may run once the awaited promise has settled;
* `dispatchEvent` appends to a `dispatched` log, and to a `delivered`
  log only while the abort controller has not been aborted; every
  listener is registered through the overridden `addEventListener`,
  which always attaches the abort signal, so after `destroy()` no
  listener remains and nothing is delivered;
* the producer `getValue` is an external oracle: invoking it allocates
  a fresh pending promise (recorded in `producerLog`), and a separate
  environment step settles it with an arbitrary outcome.

Interleaving is free: any operation or scheduler step may run between
two atomic steps.  This is a superset of the real event-loop orderings,
which is sound for the safety properties proved below; the concrete
counterexample traces are annotated with the event-loop schedule that
realises them in the actual program.

Parameters, values, keys and error payloads are all specialised to `Nat`
so that every definition is executable and every concrete statement is
decidable.
-/

set_option autoImplicit false

namespace SwrCache

abbrev Key := Nat
abbrev Param := Nat
abbrev Value := Nat
abbrev ErrVal := Nat
abbrev PromiseId := Nat
abbrev EntryId := Nat
abbrev TaskId := Nat

/-- Association-list lookup on `Nat` keys (models `Map.get`). -/
def lookupA {α : Type} : List (Nat × α) → Nat → Option α
  | [], _ => none
  | (k', v) :: t, k => if k' = k then some v else lookupA t k

/-- Association-list insert-or-replace (models `Map.set`, which updates in
place for an existing key and appends for a new one, preserving
insertion order exactly like a JavaScript `Map`). -/
def setA {α : Type} : List (Nat × α) → Nat → α → List (Nat × α)
  | [], k, v => [(k, v)]
  | (k', v') :: t, k, v => if k' = k then (k, v) :: t else (k', v') :: setA t k v

/-- Association-list removal (models `Map.delete`). -/
def removeA {α : Type} : List (Nat × α) → Nat → List (Nat × α)
  | [], _ => []
  | (k', v') :: t, k => if k' = k then removeA t k else (k', v') :: removeA t k

/-- Observable state of a `PromiseWithMeta` as maintained by
`attachPromiseMeta`: `status` plus `value` / `reason`.  A fulfilled
value of `undefined` is `fulfilled none`. -/
inductive PromiseState where
  | pending
  | fulfilled (v : Option Value)
  | rejected (e : ErrVal)
  deriving DecidableEq, Repr

/-- One `CacheEntry` record.  `refresh` is the nullable in-flight-refresh
marker (`Promise<void> | null`), identified by the task id of the
corresponding `#createRefresh` resumption. -/
structure EntryData where
  param : Param
  promiseId : PromiseId
  expiry : Nat
  refresh : Option TaskId
  deriving DecidableEq, Repr

/-- Notifications dispatched through the cache's event target, with the
payloads of `state:missing`, `state:update` (`stale` / `resolved` /
`rejected`) and `state:reset`. -/
inductive Event where
  | missing (k : Key) (p : Param)
  | stale (k : Key) (p : Param) (v : Value)
  | resolved (k : Key) (p : Param) (v : Option Value)
  | rejected (k : Key) (p : Param) (e : ErrVal)
  | reset
  deriving DecidableEq, Repr

/-- Suspended asynchronous continuations.

* `fetchCont` — the `promise.then(onResolved, onRejected)` pair that
  `#getEntry` registers on a first fetch, with its captured epoch;
* `refreshResume` — the rest of `#createRefresh` after `await promise`,
  with its captured epoch and a reference to the entry object whose
  `refresh` field the `finally` block clears;
* `sweepResume` — the rest of `#refreshStaleEntries` after one loop
  iteration's `await`, holding the remaining snapshot, the epoch
  captured at sweep start, and the value the `await` is waiting on
  (`none` models `await undefined`). -/
inductive TaskKind where
  | fetchCont (k : Key) (p : Param) (pid : PromiseId) (epoch : Nat)
  | refreshResume (k : Key) (p : Param) (pid : PromiseId) (epoch : Nat) (oldEntry : EntryId)
  | sweepResume (remaining : List (Key × EntryId)) (epoch : Nat) (awaiting : Option TaskId)
  deriving DecidableEq, Repr

/-- The whole mutable state of one `SwrCache` instance plus its
environment bookkeeping (promise table, task queue, logs). -/
structure St where
  now : Nat
  epoch : Nat
  aborted : Bool
  nextId : Nat
  promises : List (PromiseId × PromiseState)
  entries : List (EntryId × EntryData)
  cacheMap : List (Key × EntryId)
  tasks : List (TaskId × TaskKind)
  doneTasks : List TaskId
  producerLog : List (PromiseId × Param)
  dispatched : List Event
  delivered : List Event
  deriving DecidableEq, Repr

/-- Construction-time configuration after defaulting (the dynamic model
only needs `getKey` and `ttlMs`; the sweep period only drives the
external timer). -/
structure Config where
  getKey : Param → Key
  ttlMs : Nat
  refreshIntervalMs : Nat

/-- The state of a freshly constructed cache: `epoch = 0`, empty map,
not aborted. -/
def initSt : St :=
  { now := 0, epoch := 0, aborted := false, nextId := 0, promises := [],
    entries := [], cacheMap := [], tasks := [], doneTasks := [],
    producerLog := [], dispatched := [], delivered := [] }

/-- Dispatching an event: it is always recorded as dispatched, and is
delivered to observers only while the abort controller is alive, since
every registration made through the class's `addEventListener` carries
the abort signal and is torn down by `destroy()`. -/
def dispatch (s : St) (e : Event) : St :=
  { s with
    dispatched := s.dispatched ++ [e],
    delivered := if s.aborted then s.delivered else s.delivered ++ [e] }

/-- Result of `getAsync`: either the rejected destroyed-instance promise
or the entry's operation handle. -/
inductive GetAsyncResult where
  | destroyedError
  | handle (pid : PromiseId)
  deriving DecidableEq, Repr

/-- Result of `read`: the destroyed-instance rejection, a synchronous
value, or the operation handle. -/
inductive ReadResult where
  | destroyedError
  | value (v : Value)
  | handle (pid : PromiseId)
  deriving DecidableEq, Repr

/-- The `#getEntry` method.  On a miss it invokes the producer (fresh
pending promise), registers the completion continuation with the epoch
captured at the start of the call, dispatches `state:missing`, and
inserts the new entry with `expiry = now + ttlMs`; on a hit it returns
the existing entry untouched. -/
def getEntryFn (c : Config) (s : St) (p : Param) : St × Key × EntryId :=
  let k := c.getKey p
  match lookupA s.cacheMap k with
  | some eid => (s, k, eid)
  | none =>
    let pid := s.nextId
    let s1 : St := { s with
      nextId := s.nextId + 1,
      promises := setA s.promises pid .pending,
      producerLog := s.producerLog ++ [(pid, p)] }
    let tid := s1.nextId
    let s2 : St := { s1 with
      nextId := s1.nextId + 1,
      tasks := setA s1.tasks tid (.fetchCont k p pid s.epoch) }
    let s3 := dispatch s2 (.missing k p)
    let eid := s3.nextId
    let entry : EntryData :=
      { param := p, promiseId := pid, expiry := s.now + c.ttlMs, refresh := none }
    let s4 : St := { s3 with
      nextId := s3.nextId + 1,
      entries := setA s3.entries eid entry,
      cacheMap := setA s3.cacheMap k eid }
    (s4, k, eid)

/-- The `#refreshEntry` method together with the synchronous part of
`#createRefresh` (everything before `await promise`).  If the entry
object already carries an in-flight refresh it is returned (value
`some tid`); otherwise the producer is invoked, the map entry for `k`
is replaced by a brand-new entry holding the new pending promise and a
bumped expiry, the resumption task is registered, the old entry
object's `refresh` field is set — and the function returns `none`,
because the source has no `return` on this path (`await undefined` in
the sweep). -/
def refreshEntryFn (c : Config) (s : St) (k : Key) (eid : EntryId) (ep : Nat) :
    St × Option TaskId :=
  match lookupA s.entries eid with
  | none => (s, none)
  | some e =>
    match e.refresh with
    | some tid => (s, some tid)
    | none =>
      let pid := s.nextId
      let s1 : St := { s with
        nextId := s.nextId + 1,
        promises := setA s.promises pid .pending,
        producerLog := s.producerLog ++ [(pid, e.param)] }
      let neid := s1.nextId
      let nentry : EntryData :=
        { param := e.param, promiseId := pid, expiry := s.now + c.ttlMs, refresh := none }
      let s2 : St := { s1 with
        nextId := s1.nextId + 1,
        entries := setA s1.entries neid nentry,
        cacheMap := setA s1.cacheMap k neid }
      let tid := s2.nextId
      let s3 : St := { s2 with
        nextId := s2.nextId + 1,
        tasks := setA s2.tasks tid (.refreshResume k e.param pid ep eid) }
      let s4 : St := { s3 with
        entries := setA s3.entries eid { e with refresh := some tid } }
      (s4, none)

/-- The `getAsync` method.  A destroyed instance short-circuits to the
rejected destroyed-instance promise.  Otherwise the entry is looked up
or created, and if its handle is fulfilled with a defined value and
expired, a `stale` notification is dispatched and a refresh is
triggered with the live epoch; the promise captured before the refresh
replaced the map entry is returned. -/
def getAsyncFn (c : Config) (s : St) (p : Param) : St × GetAsyncResult :=
  if s.aborted then (s, .destroyedError)
  else
    let r := getEntryFn c s p
    match lookupA r.1.entries r.2.2 with
    | none => (r.1, .handle 0)
    | some e =>
      match lookupA r.1.promises e.promiseId with
      | some (.fulfilled (some v)) =>
        if e.expiry ≤ r.1.now then
          let s2 := dispatch r.1 (.stale r.2.1 e.param v)
          ((refreshEntryFn c s2 r.2.1 r.2.2 s2.epoch).1, .handle e.promiseId)
        else (r.1, .handle e.promiseId)
      | _ => (r.1, .handle e.promiseId)

/-- The `read` method: `getAsync`, returned synchronously as a value
when the returned handle is fulfilled with a defined value. -/
def readFn (c : Config) (s : St) (p : Param) : St × ReadResult :=
  match getAsyncFn c s p with
  | (s1, .destroyedError) => (s1, .destroyedError)
  | (s1, .handle pid) =>
    match lookupA s1.promises pid with
    | some (.fulfilled (some v)) => (s1, .value v)
    | _ => (s1, .handle pid)

/-- The `prime` method: `getAsync` with the result discarded. -/
def primeFn (c : Config) (s : St) (p : Param) : St :=
  (getAsyncFn c s p).1

/-- The `peek` method: synchronous lookup; on a fulfilled, defined and
expired value it calls `prime` (which re-runs the stale path) before
returning the value read from the original promise. -/
def peekFn (c : Config) (s : St) (p : Param) : St × Option Value :=
  match lookupA s.cacheMap (c.getKey p) with
  | none => (s, none)
  | some eid =>
    match lookupA s.entries eid with
    | none => (s, none)
    | some e =>
      match lookupA s.promises e.promiseId with
      | some (.fulfilled (some v)) =>
        if e.expiry ≤ s.now then (primeFn c s p, some v) else (s, some v)
      | _ => (s, none)

/-- The `state:prime` listener installed by the constructor: it is only
alive while the abort controller is (it is registered with the abort
signal); it resolves or creates the entry via `#getEntry`, re-dispatches
`resolved` with the current value when the handle is fulfilled and
defined, and then unconditionally triggers `#refreshEntry` with the
live epoch. -/
def statePrimeFn (c : Config) (s : St) (p : Param) : St :=
  if s.aborted then s
  else
    let r := getEntryFn c s p
    match lookupA r.1.entries r.2.2 with
    | none => r.1
    | some e =>
      let s2 :=
        match lookupA r.1.promises e.promiseId with
        | some (.fulfilled (some v)) => dispatch r.1 (.resolved r.2.1 e.param (some v))
        | _ => r.1
      (refreshEntryFn c s2 r.2.1 r.2.2 s2.epoch).1

/-- The `clear` method: bump the epoch, empty the map, dispatch
`state:reset`. -/
def clearFn (s : St) : St :=
  dispatch { s with epoch := s.epoch + 1, cacheMap := [] } .reset

/-- The `destroy` method: bump the epoch, empty the map, abort the
controller (which detaches every listener and every pending timer). -/
def destroyFn (s : St) : St :=
  { s with epoch := s.epoch + 1, cacheMap := [], aborted := true }

/-- An environment step: the producer promise `pid` settles, and
`attachPromiseMeta`'s handlers record the outcome on the handle. -/
def settleFn (s : St) (pid : PromiseId) (ps : PromiseState) : St :=
  { s with promises := setA s.promises pid ps }

/-- Running the completion continuation `#getEntry` registered on a
first fetch.  Both callbacks are gated on the captured epoch matching
the live one and the controller not being aborted; on rejection the
entry is evicted before the `rejected` notification. -/
def runFetchContFn (s : St) (tid : TaskId) : St :=
  match lookupA s.tasks tid with
  | some (.fetchCont k p pid ep) =>
    let s1 : St := { s with tasks := removeA s.tasks tid }
    match lookupA s1.promises pid with
    | some (.fulfilled ov) =>
      if s1.epoch = ep ∧ s1.aborted = false then dispatch s1 (.resolved k p ov) else s1
    | some (.rejected e) =>
      if s1.epoch = ep ∧ s1.aborted = false then
        dispatch { s1 with cacheMap := removeA s1.cacheMap k } (.rejected k p e)
      else s1
    | _ => s1
  | _ => s

/-- Running the rest of `#createRefresh` after `await promise`.  The
try/catch body is epoch- and abort-gated; the `finally` block clears
the old entry object's `refresh` marker unconditionally; completing the
async function settles the refresh promise, which the sweep may be
awaiting (`doneTasks`). -/
def runRefreshResumeFn (s : St) (tid : TaskId) : St :=
  match lookupA s.tasks tid with
  | some (.refreshResume k p pid ep oldEid) =>
    let s1 : St := { s with
      tasks := removeA s.tasks tid,
      doneTasks := s.doneTasks ++ [tid] }
    let s2 : St :=
      match lookupA s1.promises pid with
      | some (.fulfilled ov) =>
        if s1.epoch = ep ∧ s1.aborted = false then dispatch s1 (.resolved k p ov) else s1
      | some (.rejected e) =>
        if s1.epoch = ep ∧ s1.aborted = false then
          dispatch { s1 with cacheMap := removeA s1.cacheMap k } (.rejected k p e)
        else s1
      | _ => s1
    match lookupA s2.entries oldEid with
    | some oe => { s2 with entries := setA s2.entries oldEid { oe with refresh := none } }
    | none => s2
  | _ => s

/-- The snapshot `Array.from(this.#cache.entries()).filter(...)` taken at
sweep start: entries whose expiry has passed and whose handle status is
`fulfilled` (regardless of whether the value is defined). -/
def staleSnapshot (s : St) : List (Key × EntryId) :=
  s.cacheMap.filter fun ke =>
    match lookupA s.entries ke.2 with
    | some e =>
      decide (e.expiry ≤ s.now) &&
        (match lookupA s.promises e.promiseId with
         | some (.fulfilled _) => true
         | _ => false)
    | none => false

/-- The synchronous part of `#refreshStaleEntries`: no-op on an empty
map or an empty snapshot; otherwise the first iteration runs
immediately (triggering that entry's refresh) and the loop suspends on
`await`, recorded as a `sweepResume` task carrying the captured epoch
and whatever `#refreshEntry` returned. -/
def sweepStartFn (c : Config) (s : St) : St :=
  if s.cacheMap.isEmpty then s
  else
    match staleSnapshot s with
    | [] => s
    | (k, eid) :: rest =>
      let r := refreshEntryFn c s k eid s.epoch
      let tid := r.1.nextId
      { r.1 with
        nextId := r.1.nextId + 1,
        tasks := setA r.1.tasks tid (.sweepResume rest s.epoch r.2) }

/-- One resumption of the sweep loop: if the snapshot is exhausted the
sweep completes, otherwise the next snapshotted entry's refresh is
triggered with the epoch captured at sweep start and the loop suspends
again. -/
def sweepResumeFn (c : Config) (s : St) (tid : TaskId) : St :=
  match lookupA s.tasks tid with
  | some (.sweepResume rem ep _) =>
    match rem with
    | [] => { s with tasks := removeA s.tasks tid }
    | (k, eid) :: rest =>
      let r := refreshEntryFn c s k eid ep
      { r.1 with tasks := setA r.1.tasks tid (.sweepResume rest ep r.2) }
  | _ => s

/-- The full step relation: any public operation, listener invocation,
scheduler step, promise settlement or clock advance may happen at any
point.  This is a superset of the schedules the JavaScript event loop
allows, which is sound for the safety properties below. -/
inductive Step (c : Config) : St → St → Prop
  | read (s : St) (p : Param) : Step c s (readFn c s p).1
  | peek (s : St) (p : Param) : Step c s (peekFn c s p).1
  | prime (s : St) (p : Param) : Step c s (primeFn c s p)
  | statePrime (s : St) (p : Param) : Step c s (statePrimeFn c s p)
  | clear (s : St) : Step c s (clearFn s)
  | destroy (s : St) : Step c s (destroyFn s)
  | settle (s : St) (pid : PromiseId) (ps : PromiseState) : Step c s (settleFn s pid ps)
  | fetchCont (s : St) (tid : TaskId) : Step c s (runFetchContFn s tid)
  | refreshResume (s : St) (tid : TaskId) : Step c s (runRefreshResumeFn s tid)
  | sweepStart (s : St) : Step c s (sweepStartFn c s)
  | sweepResume (s : St) (tid : TaskId) : Step c s (sweepResumeFn c s tid)
  | tick (s : St) (d : Nat) : Step c s { s with now := s.now + d }

/-- Number of producer invocations for parameter `p` whose promise is
still pending — i.e. producer calls currently in flight for `p`. -/
def pendingProducerCallsFor (s : St) (p : Param) : Nat :=
  (s.producerLog.filter fun pr =>
    decide (pr.2 = p) && decide (lookupA s.promises pr.1 = some .pending)).length

end SwrCache

namespace SwrCache

/-! ### Constructor-time configuration validation

The constructor spreads the caller's options over the defaults
(`ttlMs = 30000`, `refreshIntervalMs = 60000`) and then throws
synchronously when the effective `refreshIntervalMs` is not greater
than the effective `ttlMs`. -/

/-- Recognised numeric constructor options, each possibly absent. -/
structure SwrCacheOptions where
  ttlMs : Option Nat := none
  refreshIntervalMs : Option Nat := none
  deriving DecidableEq, Repr

/-- The `ttlMs` default. -/
def DEFAULT_TTL_MS : Nat := 30000

/-- The `refreshIntervalMs` default. -/
def DEFAULT_REFRESH_INTERVAL_MS : Nat := 60000

/-- Effective `ttlMs` after the `{ ...defaults, ...config }` merge. -/
def resolvedTtlMs (o : SwrCacheOptions) : Nat :=
  o.ttlMs.getD DEFAULT_TTL_MS

/-- Effective `refreshIntervalMs` after the merge. -/
def resolvedRefreshIntervalMs (o : SwrCacheOptions) : Nat :=
  o.refreshIntervalMs.getD DEFAULT_REFRESH_INTERVAL_MS

/-- The constructor's validation: it throws exactly when
`refreshIntervalMs <= ttlMs` after defaulting. -/
def construct (o : SwrCacheOptions) : Except String Unit :=
  if resolvedRefreshIntervalMs o ≤ resolvedTtlMs o then
    .error "`refreshIntervalMs` must be greater than `ttlMs`."
  else
    .ok ()

/-- The state produced by `#refreshEntry` when it actually starts a
refresh of entry `eid` (whose current data is `e`) for key `k` with
captured epoch `ep`. -/
def refreshStartState (c : Config) (s : St) (k : Key) (eid : EntryId) (e : EntryData)
    (ep : Nat) : St :=
  { s with
    nextId := s.nextId + 3,
    promises := setA s.promises s.nextId .pending,
    producerLog := s.producerLog ++ [(s.nextId, e.param)],
    entries := setA
      (setA s.entries (s.nextId + 1)
        { param := e.param, promiseId := s.nextId, expiry := s.now + c.ttlMs, refresh := none })
      eid { e with refresh := some (s.nextId + 2) },
    cacheMap := setA s.cacheMap k (s.nextId + 1),
    tasks := setA s.tasks (s.nextId + 2) (.refreshResume k e.param s.nextId ep eid) }

/-- The state produced by `read`/`getAsync`/`prime` on a key with no
entry (and a live instance): producer invoked (pending promise
`s.nextId`), completion continuation registered (`s.nextId + 1`) with
the current epoch, `missing` dispatched, entry `s.nextId + 2` inserted
with `expiry = now + ttlMs`. -/
def firstFetchState (c : Config) (s : St) (p : Param) : St :=
  { s with
    nextId := s.nextId + 3,
    promises := setA s.promises s.nextId .pending,
    producerLog := s.producerLog ++ [(s.nextId, p)],
    tasks := setA s.tasks (s.nextId + 1) (.fetchCont (c.getKey p) p s.nextId s.epoch),
    dispatched := s.dispatched ++ [.missing (c.getKey p) p],
    delivered := if s.aborted then s.delivered else s.delivered ++ [.missing (c.getKey p) p],
    entries := setA s.entries (s.nextId + 2)
      { param := p, promiseId := s.nextId, expiry := s.now + c.ttlMs, refresh := none },
    cacheMap := setA s.cacheMap (c.getKey p) (s.nextId + 2) }

/-! ### Concrete configurations and traces

`cfgW` is a small concrete configuration (identity key derivation,
`ttlMs = 10`, `refreshIntervalMs = 100`) used by all concrete
executions below.  Each trace is a sequence of model steps; the
accompanying comments give the event-loop schedule realising it in the
actual program. -/

/-- Concrete configuration for executions: identity `getKey`,
`ttlMs = 10`, `refreshIntervalMs = 100`. -/
def cfgW : Config := { getKey := fun p => p, ttlMs := 10, refreshIntervalMs := 100 }

/-- One fully resolved entry for key `1` (value `7`): fetch at `t = 0`
(producer promise `0`, continuation task `1`, entry `2`), settle,
run the completion continuation. -/
def oneEntrySt : St :=
  runFetchContFn (settleFn (readFn cfgW initSt 1).1 0 (.fulfilled (some 7))) 1

/-- The resolved entry for key `1`, with the clock advanced past its
expiry (`10`): the next access finds it stale. -/
def oneStaleSt : St := { oneEntrySt with now := 15 }

/-- A stale access on `oneStaleSt`: `read` returned the old value `7`,
dispatched `stale`, and started a refresh (pending promise `3`, new
entry `4`, resumption task `5`). -/
def oneRefreshingSt : St := (readFn cfgW oneStaleSt 1).1

/-- Resolved entry whose producer was invoked at `t = 0` but which only
fulfilled at `t = 5` (so its expiry is `0 + 10`, anchored at the
invocation): fetch at `0`, clock to `5`, settle, run continuation,
clock to `12`. -/
def lateResolveSt : St :=
  { runFetchContFn
      (settleFn { (readFn cfgW initSt 1).1 with now := 5 } 0 (.fulfilled (some 7)))
      1 with now := 12 }

/-- One fulfilled entry for key `1` whose producer fulfilled with
`undefined` (`fulfilled none`), with the clock past its expiry. -/
def undefinedValueSt : St :=
  { runFetchContFn (settleFn (readFn cfgW initSt 1).1 0 (.fulfilled none)) 1 with now := 15 }

/-- Two fully resolved entries, both stale: key `1` (promise `0`, task
`1`, entry `2`, value `7`) and key `2` (promise `3`, task `4`, entry
`5`, value `8`), fetched and settled at `t = 0`, clock at `15`. -/
def twoStaleSt : St :=
  let a := (readFn cfgW (readFn cfgW initSt 1).1 2).1
  let b := settleFn (settleFn a 0 (.fulfilled (some 7))) 3 (.fulfilled (some 8))
  { runFetchContFn (runFetchContFn b 1) 4 with now := 15 }

/-- Sweep started on `twoStaleSt`: the first iteration refreshed key `1`
(producer promise `6`, new entry `7`, resumption task `8`) and the loop
suspended on `await undefined`, leaving the sweep task `9` with the
snapshot remainder `[(2, 5)]`. -/
def sweepStartedSt : St := sweepStartFn cfgW twoStaleSt

/-- The sweep resumed once on `sweepStartedSt` without promise `6`
having settled: the key-`2` refresh starts (producer promise `10`)
while the key-`1` refresh is still unsettled.  (Realisable directly:
`await undefined` resumes on the very next microtask, long before the
slow producer settles.) -/
def sweepTwoInFlightSt : St := sweepResumeFn cfgW sweepStartedSt 9

/-- On `sweepStartedSt`: the key-`1` refresh settles and its resumption
runs (dispatching `resolved`), then `clear()` runs — epoch `1`, map
emptied.  (Realisable: the producer promise was already resolved, so
the resumption's `resolved` dispatch runs before the sweep's microtask,
and a listener reacting to it calls `clear()`.) -/
def clearedMidSweepSt : St :=
  clearFn (runRefreshResumeFn (settleFn sweepStartedSt 6 (.fulfilled (some 9))) 8)

/-- One further sweep resumption after the mid-sweep `clear()`: the
sweep still holds the old snapshot and the stale epoch `0`, and
re-inserts a pending entry for key `2` into the cleared store
(producer promise `10`, new entry `11`). -/
def sweepAfterClearSt : St := sweepResumeFn cfgW clearedMidSweepSt 9

/-- Three resolved stale entries: keys `1`, `2`, `3` (promises `0`, `3`,
`6`; entries `2`, `5`, `8`), fetched and settled at `t = 0`, clock at
`15`. -/
def threeStaleSt : St :=
  let a := (readFn cfgW (readFn cfgW (readFn cfgW initSt 1).1 2).1 3).1
  let b := settleFn (settleFn (settleFn a 0 (.fulfilled (some 100))) 3
    (.fulfilled (some 200))) 6 (.fulfilled (some 300))
  { runFetchContFn (runFetchContFn (runFetchContFn b 1) 4) 7 with now := 15 }

/-- The duplicated-refresh trace on `threeStaleSt`, step by step:

1. sweep starts; iteration 1 refreshes key `1` (promise `9`, task `11`);
   sweep task `12` holds snapshot remainder `[(2,5), (3,8)]`;
2. promise `9` settles and resumption `11` runs (its `resolved`
   dispatch is where a listener may re-enter the cache);
3. a stale `read` of key `2` starts refresh (slow producer promise
   `13`, task `15`) on the snapshotted entry object `5`;
4. the sweep resumes: entry `5` still carries marker `15`, so it
   deduplicates and suspends awaiting task `15` — a real suspension,
   during which arbitrary work interleaves;
5. a stale `read` of key `3` starts refresh (promise `16`, task `18`)
   on the snapshotted entry object `8`;
6. promise `16` settles, resumption `18` runs — clearing entry `8`'s
   refresh marker in its `finally` block;
7. the clock passes the new expiry and another stale `read` of key `3`
   starts a second refresh generation (pending promise `19`, task `21`)
   on the current map entry `17`;
8. promise `13` settles and resumption `15` runs, so the sweep's
   awaited refresh is done. -/
def preDuplicateSt : St :=
  let a := runRefreshResumeFn (settleFn (sweepStartFn cfgW threeStaleSt) 9
    (.fulfilled (some 101))) 11
  let b := (readFn cfgW a 2).1
  let d := (readFn cfgW (sweepResumeFn cfgW b 12) 3).1
  let e := runRefreshResumeFn (settleFn d 16 (.fulfilled (some 301))) 18
  let f := (readFn cfgW { e with now := 26 } 3).1
  runRefreshResumeFn (settleFn f 13 (.fulfilled (some 201))) 15

/-- The sweep's final resumption on `preDuplicateSt`: it reaches the
snapshotted entry object `8` for key `3`, whose marker was cleared in
step 6, and starts a duplicate producer invocation (promise `22`) for
key `3` while promise `19` is still pending. -/
def duplicateSt : St := sweepResumeFn cfgW preDuplicateSt 12

/-- The store state reached after a failed first fetch of `p` from `s`:
the fetch, the rejection of its producer promise with `err`, and the
completion continuation. -/
def afterFirstFetchFailure (c : Config) (s : St) (p : Param) (err : ErrVal) : St :=
  runFetchContFn (settleFn (readFn c s p).1 s.nextId (.rejected err)) (s.nextId + 1)

/-- A destroyed instance with a fetch that was in flight at destruction
time: the producer settles afterwards and the completion continuation
runs, from `destroyFn oneFlightSt`. -/
def oneFlightSt : St := (readFn cfgW initSt 1).1

/-- The state after destruction of `oneFlightSt`, the late settlement of
its in-flight producer promise, and the run of the completion
continuation. -/
def destroyedLateSt : St :=
  runFetchContFn (settleFn (destroyFn oneFlightSt) 0 (.fulfilled (some 7))) 1

end SwrCache

namespace SwrCache

/-! ### Association-list laws -/

theorem lookupA_setA_self {α : Type} (l : List (Nat × α)) (k : Nat) (v : α) :
    lookupA (setA l k v) k = some v := by
  induction l with
  | nil => simp [setA, lookupA]
  | cons h t ih =>
    by_cases hk : h.1 = k <;> simp [setA, lookupA, hk, ih]

theorem lookupA_setA_ne {α : Type} (l : List (Nat × α)) (k k' : Nat) (v : α)
    (h : k' ≠ k) : lookupA (setA l k v) k' = lookupA l k' := by
  have hkk : ¬ k = k' := fun hh => h hh.symm
  induction l with
  | nil => simp [setA, lookupA, hkk]
  | cons hd t ih =>
    rcases hd with ⟨a, b⟩
    by_cases hk : a = k
    · subst hk
      simp [setA, lookupA, hkk]
    · simp [setA, lookupA, hk, ih]

theorem lookupA_removeA_self {α : Type} (l : List (Nat × α)) (k : Nat) :
    lookupA (removeA l k) k = none := by
  induction l with
  | nil => simp [removeA, lookupA]
  | cons h t ih =>
    by_cases hk : h.1 = k <;> simp [removeA, lookupA, hk, ih]

theorem lookupA_removeA_ne {α : Type} (l : List (Nat × α)) (k k' : Nat)
    (h : k' ≠ k) : lookupA (removeA l k) k' = lookupA l k' := by
  have hkk : ¬ k = k' := fun hh => h hh.symm
  induction l with
  | nil => simp [removeA, lookupA]
  | cons hd t ih =>
    rcases hd with ⟨a, b⟩
    by_cases hk : a = k
    · subst hk
      simp [removeA, lookupA, hkk, ih]
    · simp [removeA, lookupA, hk, ih]

/-! ### Behaviour of the read surface on an entry whose handle is pending

While a refresh (or a first fetch) is in flight, the map entry holds a
pending handle, and none of `read` / `peek` / `prime` invokes the
producer or dispatches anything. -/

theorem getAsync_pending (c : Config) (s : St) (p : Param) (eid : EntryId) (e : EntryData)
    (hm : lookupA s.cacheMap (c.getKey p) = some eid)
    (he : lookupA s.entries eid = some e)
    (hp : lookupA s.promises e.promiseId = some .pending)
    (ha : s.aborted = false) :
    getAsyncFn c s p = (s, .handle e.promiseId) := by
  simp [getAsyncFn, getEntryFn, ha, hm, he, hp]

theorem read_pending (c : Config) (s : St) (p : Param) (eid : EntryId) (e : EntryData)
    (hm : lookupA s.cacheMap (c.getKey p) = some eid)
    (he : lookupA s.entries eid = some e)
    (hp : lookupA s.promises e.promiseId = some .pending)
    (ha : s.aborted = false) :
    readFn c s p = (s, .handle e.promiseId) := by
  simp [readFn, getAsync_pending c s p eid e hm he hp ha, hp]

theorem peek_pending (c : Config) (s : St) (p : Param) (eid : EntryId) (e : EntryData)
    (hm : lookupA s.cacheMap (c.getKey p) = some eid)
    (he : lookupA s.entries eid = some e)
    (hp : lookupA s.promises e.promiseId = some .pending) :
    peekFn c s p = (s, none) := by
  simp [peekFn, hm, he, hp]

theorem prime_pending (c : Config) (s : St) (p : Param) (eid : EntryId) (e : EntryData)
    (hm : lookupA s.cacheMap (c.getKey p) = some eid)
    (he : lookupA s.entries eid = some e)
    (hp : lookupA s.promises e.promiseId = some .pending)
    (ha : s.aborted = false) :
    primeFn c s p = s := by
  simp [primeFn, getAsync_pending c s p eid e hm he hp ha]

/-! ### Behaviour on a fresh fulfilled entry -/

theorem getAsync_fresh (c : Config) (s : St) (p : Param) (eid : EntryId) (e : EntryData)
    (v : Value)
    (hm : lookupA s.cacheMap (c.getKey p) = some eid)
    (he : lookupA s.entries eid = some e)
    (hp : lookupA s.promises e.promiseId = some (.fulfilled (some v)))
    (ha : s.aborted = false)
    (hfresh : s.now < e.expiry) :
    getAsyncFn c s p = (s, .handle e.promiseId) := by
  simp [getAsyncFn, getEntryFn, ha, hm, he, hp, Nat.not_le.mpr hfresh]

theorem read_fresh (c : Config) (s : St) (p : Param) (eid : EntryId) (e : EntryData)
    (v : Value)
    (hm : lookupA s.cacheMap (c.getKey p) = some eid)
    (he : lookupA s.entries eid = some e)
    (hp : lookupA s.promises e.promiseId = some (.fulfilled (some v)))
    (ha : s.aborted = false)
    (hfresh : s.now < e.expiry) :
    readFn c s p = (s, .value v) := by
  simp [readFn, getAsync_fresh c s p eid e v hm he hp ha hfresh, hp]

theorem peek_fresh (c : Config) (s : St) (p : Param) (eid : EntryId) (e : EntryData)
    (v : Value)
    (hm : lookupA s.cacheMap (c.getKey p) = some eid)
    (he : lookupA s.entries eid = some e)
    (hp : lookupA s.promises e.promiseId = some (.fulfilled (some v)))
    (hfresh : s.now < e.expiry) :
    peekFn c s p = (s, some v) := by
  simp [peekFn, hm, he, hp, Nat.not_le.mpr hfresh]

end SwrCache

namespace SwrCache

/-! ### Explicit description of a refresh start

Starting a refresh on an entry whose marker is clear performs exactly:
one producer invocation (fresh pending promise `s.nextId`), replacement
of the map entry by a brand-new entry (`s.nextId + 1`) holding the new
pending handle and a bumped expiry, registration of the resumption task
(`s.nextId + 2`), and setting the old entry object's marker. -/

theorem refreshEntry_start (c : Config) (s : St) (k : Key) (eid : EntryId) (e : EntryData)
    (ep : Nat)
    (he : lookupA s.entries eid = some e)
    (hr : e.refresh = none) :
    refreshEntryFn c s k eid ep = (refreshStartState c s k eid e ep, none) := by
  simp [refreshEntryFn, he, hr, refreshStartState]

theorem refreshEntry_dedup (c : Config) (s : St) (k : Key) (eid : EntryId) (e : EntryData)
    (ep tid : Nat)
    (he : lookupA s.entries eid = some e)
    (hr : e.refresh = some tid) :
    refreshEntryFn c s k eid ep = (s, some tid) := by
  simp [refreshEntryFn, he, hr]

/-! Projection laws for `dispatch`: it only touches the two logs. -/

@[simp] theorem dispatch_now (s : St) (e : Event) : (dispatch s e).now = s.now := rfl

@[simp] theorem dispatch_epoch (s : St) (e : Event) : (dispatch s e).epoch = s.epoch := rfl

@[simp] theorem dispatch_aborted (s : St) (e : Event) : (dispatch s e).aborted = s.aborted := rfl

@[simp] theorem dispatch_nextId (s : St) (e : Event) : (dispatch s e).nextId = s.nextId := rfl

@[simp] theorem dispatch_promises (s : St) (e : Event) :
    (dispatch s e).promises = s.promises := rfl

@[simp] theorem dispatch_entries (s : St) (e : Event) : (dispatch s e).entries = s.entries := rfl

@[simp] theorem dispatch_cacheMap (s : St) (e : Event) :
    (dispatch s e).cacheMap = s.cacheMap := rfl

@[simp] theorem dispatch_tasks (s : St) (e : Event) : (dispatch s e).tasks = s.tasks := rfl

@[simp] theorem dispatch_doneTasks (s : St) (e : Event) :
    (dispatch s e).doneTasks = s.doneTasks := rfl

@[simp] theorem dispatch_producerLog (s : St) (e : Event) :
    (dispatch s e).producerLog = s.producerLog := rfl

/-- A stale access through `getAsync`: the `stale` notification is
dispatched first, then the refresh starts, and the promise captured
before the map entry was replaced is returned. -/
theorem getAsync_stale (c : Config) (s : St) (p : Param) (eid : EntryId) (e : EntryData)
    (v : Value)
    (hm : lookupA s.cacheMap (c.getKey p) = some eid)
    (he : lookupA s.entries eid = some e)
    (hp : lookupA s.promises e.promiseId = some (.fulfilled (some v)))
    (ha : s.aborted = false)
    (hr : e.refresh = none)
    (hstale : e.expiry ≤ s.now) :
    getAsyncFn c s p =
      (refreshStartState c (dispatch s (.stale (c.getKey p) e.param v)) (c.getKey p) eid e
        s.epoch, .handle e.promiseId) := by
  have he' : lookupA (dispatch s (.stale (c.getKey p) e.param v)).entries eid = some e := he
  have hstep := refreshEntry_start c (dispatch s (.stale (c.getKey p) e.param v))
    (c.getKey p) eid e s.epoch he' hr
  simp [getAsyncFn, getEntryFn, ha, hm, he, hp, hstale, hstep]

/-- A stale `read` returns the pre-refresh value synchronously (the old
promise object is untouched by the refresh). -/
theorem read_stale (c : Config) (s : St) (p : Param) (eid : EntryId) (e : EntryData)
    (v : Value)
    (hm : lookupA s.cacheMap (c.getKey p) = some eid)
    (he : lookupA s.entries eid = some e)
    (hp : lookupA s.promises e.promiseId = some (.fulfilled (some v)))
    (ha : s.aborted = false)
    (hr : e.refresh = none)
    (hstale : e.expiry ≤ s.now)
    (hfreshid : e.promiseId ≠ s.nextId) :
    readFn c s p =
      (refreshStartState c (dispatch s (.stale (c.getKey p) e.param v)) (c.getKey p) eid e
        s.epoch, .value v) := by
  have hlook :
      lookupA (refreshStartState c (dispatch s (.stale (c.getKey p) e.param v)) (c.getKey p)
        eid e s.epoch).promises e.promiseId = some (.fulfilled (some v)) := by
    simp [refreshStartState, dispatch, lookupA_setA_ne _ _ _ _ hfreshid, hp]
  simp [readFn, getAsync_stale c s p eid e v hm he hp ha hr hstale, hlook]

/-! ### Explicit description of a first fetch -/

theorem getEntry_miss (c : Config) (s : St) (p : Param)
    (hm : lookupA s.cacheMap (c.getKey p) = none) :
    getEntryFn c s p = (firstFetchState c s p, c.getKey p, s.nextId + 2) := by
  simp [getEntryFn, hm, firstFetchState, dispatch]

theorem read_miss (c : Config) (s : St) (p : Param)
    (hm : lookupA s.cacheMap (c.getKey p) = none)
    (ha : s.aborted = false) :
    readFn c s p = (firstFetchState c s p, .handle s.nextId) := by
  have hent : lookupA (firstFetchState c s p).entries (s.nextId + 2) =
      some { param := p, promiseId := s.nextId, expiry := s.now + c.ttlMs, refresh := none } := by
    simp [firstFetchState, lookupA_setA_self]
  have hpend : lookupA (firstFetchState c s p).promises s.nextId = some .pending := by
    simp [firstFetchState, lookupA_setA_self]
  simp [readFn, getAsyncFn, ha, getEntry_miss c s p hm, hent, hpend]

end SwrCache

namespace SwrCache

/-! ### Behaviour after `destroy()`

`destroy()` sets the aborted flag, which is never reset.  Once aborted:
`read`/`prime` fail immediately with the destroyed-instance rejection
without touching the store, and no step of any kind delivers a
notification, because every completion continuation checks the abort
signal and every listener registration was torn down with the
controller. -/

theorem refreshEntry_preserves (c : Config) (s : St) (k : Key) (eid : EntryId) (ep : Nat) :
    (refreshEntryFn c s k eid ep).1.aborted = s.aborted ∧
    (refreshEntryFn c s k eid ep).1.delivered = s.delivered ∧
    (refreshEntryFn c s k eid ep).1.dispatched = s.dispatched := by
  rcases hx : lookupA s.entries eid with _ | e
  · simp [refreshEntryFn, hx]
  · rcases hr : e.refresh with _ | tid <;> simp [refreshEntryFn, hx, hr]

theorem read_aborted (c : Config) (s : St) (p : Param) (h : s.aborted = true) :
    readFn c s p = (s, .destroyedError) := by
  simp [readFn, getAsyncFn, h]

theorem prime_aborted (c : Config) (s : St) (p : Param) (h : s.aborted = true) :
    primeFn c s p = s := by
  simp [primeFn, getAsyncFn, h]

theorem peek_fst (c : Config) (s : St) (p : Param) :
    (peekFn c s p).1 = s ∨ (peekFn c s p).1 = primeFn c s p := by
  rcases hx : lookupA s.cacheMap (c.getKey p) with _ | eid
  · simp [peekFn, hx]
  · rcases hy : lookupA s.entries eid with _ | e
    · simp [peekFn, hx, hy]
    · rcases hz : lookupA s.promises e.promiseId with _ | ps
      · simp [peekFn, hx, hy, hz]
      · rcases ps with _ | ov | err
        · simp [peekFn, hx, hy, hz]
        · rcases ov with _ | v
          · simp [peekFn, hx, hy, hz]
          · by_cases hex : e.expiry ≤ s.now <;> simp [peekFn, hx, hy, hz, hex]
        · simp [peekFn, hx, hy, hz]

theorem peek_aborted (c : Config) (s : St) (p : Param) (h : s.aborted = true) :
    (peekFn c s p).1 = s := by
  rcases peek_fst c s p with hh | hh
  · exact hh
  · rw [hh, prime_aborted c s p h]

theorem statePrime_aborted (c : Config) (s : St) (p : Param) (h : s.aborted = true) :
    statePrimeFn c s p = s := by
  simp [statePrimeFn, h]

theorem fetchCont_aborted (s : St) (tid : TaskId) (h : s.aborted = true) :
    (runFetchContFn s tid).aborted = true ∧
    (runFetchContFn s tid).delivered = s.delivered := by
  rcases hx : lookupA s.tasks tid with _ | tk
  · simp [runFetchContFn, hx, h]
  · rcases tk with ⟨k, p, pid, ep⟩ | _ | _
    · rcases hy : lookupA s.promises pid with _ | ps
      · simp [runFetchContFn, hx, hy, h]
      · rcases ps with _ | ov | err <;> simp [runFetchContFn, hx, hy, h]
    · simp [runFetchContFn, hx, h]
    · simp [runFetchContFn, hx, h]

theorem refreshResume_aborted (s : St) (tid : TaskId) (h : s.aborted = true) :
    (runRefreshResumeFn s tid).aborted = true ∧
    (runRefreshResumeFn s tid).delivered = s.delivered := by
  rcases hx : lookupA s.tasks tid with _ | tk
  · simp [runRefreshResumeFn, hx, h]
  · rcases tk with _ | ⟨k, p, pid, ep, oldEid⟩ | _
    · simp [runRefreshResumeFn, hx, h]
    · rcases hy : lookupA s.promises pid with _ | ps
      · rcases hz : lookupA s.entries oldEid with _ | oe <;>
          simp [runRefreshResumeFn, hx, hy, hz, h]
      · rcases ps with _ | ov | err <;>
          rcases hz : lookupA s.entries oldEid with _ | oe <;>
            simp [runRefreshResumeFn, hx, hy, hz, h]
    · simp [runRefreshResumeFn, hx, h]

theorem sweepStart_preserves (c : Config) (s : St) :
    (sweepStartFn c s).aborted = s.aborted ∧
    (sweepStartFn c s).delivered = s.delivered := by
  by_cases hm : s.cacheMap.isEmpty
  · simp [sweepStartFn, hm]
  · rcases hs : staleSnapshot s with _ | ⟨⟨k, eid⟩, rest⟩
    · simp [sweepStartFn, hm, hs]
    · have hp := refreshEntry_preserves c s k eid s.epoch
      simp [sweepStartFn, hm, hs, hp.1, hp.2.1]

theorem sweepResume_preserves (c : Config) (s : St) (tid : TaskId) :
    (sweepResumeFn c s tid).aborted = s.aborted ∧
    (sweepResumeFn c s tid).delivered = s.delivered := by
  rcases hx : lookupA s.tasks tid with _ | tk
  · simp [sweepResumeFn, hx]
  · rcases tk with _ | _ | ⟨rem, ep, aw⟩
    · simp [sweepResumeFn, hx]
    · simp [sweepResumeFn, hx]
    · rcases rem with _ | ⟨⟨k, eid⟩, rest⟩
      · simp [sweepResumeFn, hx]
      · have hp := refreshEntry_preserves c s k eid ep
        simp [sweepResumeFn, hx, hp.1, hp.2.1]

/-- Single-step preservation: from a destroyed state, no step delivers
any notification and the instance stays destroyed. -/
theorem step_aborted (c : Config) {s s' : St} (hstep : Step c s s') (h : s.aborted = true) :
    s'.aborted = true ∧ s'.delivered = s.delivered := by
  cases hstep with
  | read p => rw [read_aborted c s p h]; exact ⟨h, rfl⟩
  | peek p => rw [peek_aborted c s p h]; exact ⟨h, rfl⟩
  | prime p => rw [prime_aborted c s p h]; exact ⟨h, rfl⟩
  | statePrime p => rw [statePrime_aborted c s p h]; exact ⟨h, rfl⟩
  | clear => refine ⟨h, ?_⟩; simp [clearFn, dispatch, h]
  | destroy => exact ⟨rfl, rfl⟩
  | settle pid ps => exact ⟨h, rfl⟩
  | fetchCont tid => exact fetchCont_aborted s tid h
  | refreshResume tid => exact refreshResume_aborted s tid h
  | sweepStart =>
    have hp := sweepStart_preserves c s
    exact ⟨hp.1.trans h, hp.2⟩
  | sweepResume tid =>
    have hp := sweepResume_preserves c s tid
    exact ⟨hp.1.trans h, hp.2⟩
  | tick d => exact ⟨h, rfl⟩

/-- Multi-step preservation along any execution. -/
theorem steps_aborted (c : Config) {s s' : St}
    (h : Relation.ReflTransGen (Step c) s s') (ha : s.aborted = true) :
    s'.aborted = true ∧ s'.delivered = s.delivered := by
  induction h with
  | refl => exact ⟨ha, rfl⟩
  | tail hs hstep ih =>
    obtain ⟨h1, h2⟩ := ih
    obtain ⟨h3, h4⟩ := step_aborted c hstep h1
    exact ⟨h3, h4.trans h2⟩

end SwrCache

namespace SwrCache

/-! ### Claim theorems -/

/-- C8: construction validates synchronously and fails exactly when the
effective `refreshIntervalMs` (default `60000`) is at most the
effective `ttlMs` (default `30000`); all other configurations construct
without error. -/
theorem claim8_constructor_validation (o : SwrCacheOptions) :
    ((construct o = .ok ()) ↔ resolvedTtlMs o < resolvedRefreshIntervalMs o) ∧
    ((construct o = .error "`refreshIntervalMs` must be greater than `ttlMs`.") ↔
      resolvedRefreshIntervalMs o ≤ resolvedTtlMs o) ∧
    resolvedTtlMs { ttlMs := none, refreshIntervalMs := none } = 30000 ∧
    resolvedRefreshIntervalMs { ttlMs := none, refreshIntervalMs := none } = 60000 := by
  by_cases h : resolvedRefreshIntervalMs o ≤ resolvedTtlMs o <;>
    simp [construct, h, resolvedTtlMs, resolvedRefreshIntervalMs,
      DEFAULT_TTL_MS, DEFAULT_REFRESH_INTERVAL_MS]

/-- Witness for C8: `ttlMs = 50, refreshIntervalMs = 40` is rejected,
and the all-defaults configuration is accepted. -/
theorem claim8_constructor_validation_witness :
    construct { ttlMs := some 50, refreshIntervalMs := some 40 } =
      .error "`refreshIntervalMs` must be greater than `ttlMs`." ∧
    construct { ttlMs := none, refreshIntervalMs := none } = .ok () :=
  ⟨(claim8_constructor_validation { ttlMs := some 50, refreshIntervalMs := some 40 }).2.1.mpr
      (by decide),
   (claim8_constructor_validation { ttlMs := none, refreshIntervalMs := none }).1.mpr
      (by decide)⟩

/-- C10: an entry whose producer fulfilled with `undefined` behaves at
the public interface as if it had never settled: `read` returns the
operation handle rather than a value, `peek` returns the no-value
sentinel, and even when the entry is expired the access-time staleness
path fires no `stale` notification and no refresh (the state is
entirely unchanged), because all three guard on the resolved value
being defined. -/
theorem claim10_undefined_value (c : Config) (s : St) (p : Param) (eid : EntryId)
    (e : EntryData)
    (hm : lookupA s.cacheMap (c.getKey p) = some eid)
    (he : lookupA s.entries eid = some e)
    (hp : lookupA s.promises e.promiseId = some (.fulfilled none))
    (ha : s.aborted = false)
    (_hstale : e.expiry ≤ s.now) :
    readFn c s p = (s, .handle e.promiseId) ∧
    peekFn c s p = (s, none) ∧
    primeFn c s p = s := by
  have hga : getAsyncFn c s p = (s, .handle e.promiseId) := by
    simp [getAsyncFn, getEntryFn, ha, hm, he, hp]
  refine ⟨?_, ?_, ?_⟩
  · simp [readFn, hga, hp]
  · simp [peekFn, hm, he, hp]
  · simp [primeFn, hga]

/-- Witness for C10 on a concrete expired entry fulfilled with
`undefined`. -/
theorem claim10_undefined_value_witness :
    readFn cfgW undefinedValueSt 1 = (undefinedValueSt, .handle 0) ∧
    peekFn cfgW undefinedValueSt 1 = (undefinedValueSt, none) ∧
    primeFn cfgW undefinedValueSt 1 = undefinedValueSt :=
  claim10_undefined_value cfgW undefinedValueSt 1 2
    { param := 1, promiseId := 0, expiry := 10, refresh := none }
    (by decide) (by decide) (by decide) (by decide) (by decide)

/-- C1 (amended): single-flight holds for every trigger that goes
through the current store entry — while a refresh is in flight the map
entry holds the new pending handle, and `read`, `peek` and `prime` all
leave the state untouched (no producer invocation, no second refresh,
no notification).  The bulk sweep, by contrast, can violate
single-flight via its start-of-sweep snapshot (see the
counterexample). -/
theorem claim1_amended (c : Config) (s : St) (p : Param) (eid : EntryId) (e : EntryData)
    (hm : lookupA s.cacheMap (c.getKey p) = some eid)
    (he : lookupA s.entries eid = some e)
    (hp : lookupA s.promises e.promiseId = some .pending)
    (ha : s.aborted = false) :
    readFn c s p = (s, .handle e.promiseId) ∧
    peekFn c s p = (s, none) ∧
    primeFn c s p = s :=
  ⟨read_pending c s p eid e hm he hp ha,
   peek_pending c s p eid e hm he hp,
   prime_pending c s p eid e hm he hp ha⟩

/-- Witness for C1 (amended) on a concrete state with an in-flight
refresh (pending promise `3` for key `1`). -/
theorem claim1_amended_witness :
    readFn cfgW oneRefreshingSt 1 = (oneRefreshingSt, .handle 3) ∧
    peekFn cfgW oneRefreshingSt 1 = (oneRefreshingSt, none) ∧
    primeFn cfgW oneRefreshingSt 1 = oneRefreshingSt :=
  claim1_amended cfgW oneRefreshingSt 1 4
    { param := 1, promiseId := 3, expiry := 25, refresh := none }
    (by decide) (by decide) (by decide) (by decide)

/-- C1 is refuted by the code: in `preDuplicateSt` a refresh for key `3`
is in flight (resumption task `21`, producer promise `19` pending, one
pending producer call for key `3`), the sweep still holds the stale
snapshot entry `(3, 8)` and its awaited refresh `15` has settled; the
next sweep resumption finds entry `8`'s marker cleared (by a completed
earlier refresh generation) and starts a second producer invocation for
key `3` (promise `22`) while promise `19` is still pending — two
concurrent producer calls for one key, triggered by the bulk sweep. -/
theorem claim1_counterexample :
    lookupA preDuplicateSt.tasks 21 = some (.refreshResume 3 3 19 0 17) ∧
    lookupA preDuplicateSt.promises 19 = some .pending ∧
    pendingProducerCallsFor preDuplicateSt 3 = 1 ∧
    lookupA preDuplicateSt.tasks 12 = some (.sweepResume [(3, 8)] 0 (some 15)) ∧
    preDuplicateSt.doneTasks = [11, 18, 15] ∧
    pendingProducerCallsFor duplicateSt 3 = 2 ∧
    duplicateSt.producerLog =
      [(0, 1), (3, 2), (6, 3), (9, 1), (13, 2), (16, 3), (19, 3), (22, 3)] := by
  decide

/-- C4 (amended): synchronous `read` and `peek` never block — when the
entry's handle is fulfilled with a defined value and unexpired, `read`
returns that most recently completed resolution synchronously and
`peek` returns it as `some v`; but while a refresh is in flight the
store's handle has already been replaced by the new pending operation,
so during that window `read` returns the pending handle and `peek`
returns the no-value sentinel (the pre-refresh stale value is returned
only by the one access that triggered the refresh). -/
theorem claim4_amended (c : Config) (s : St) (p : Param) (eid : EntryId) (e : EntryData)
    (hm : lookupA s.cacheMap (c.getKey p) = some eid)
    (he : lookupA s.entries eid = some e)
    (ha : s.aborted = false) :
    (∀ v, lookupA s.promises e.promiseId = some (.fulfilled (some v)) →
      s.now < e.expiry →
      readFn c s p = (s, .value v) ∧ peekFn c s p = (s, some v)) ∧
    (lookupA s.promises e.promiseId = some .pending →
      readFn c s p = (s, .handle e.promiseId) ∧ peekFn c s p = (s, none)) :=
  ⟨fun v hp hfresh =>
    ⟨read_fresh c s p eid e v hm he hp ha hfresh,
     peek_fresh c s p eid e v hm he hp hfresh⟩,
   fun hp =>
    ⟨read_pending c s p eid e hm he hp ha,
     peek_pending c s p eid e hm he hp⟩⟩

/-- Witness for C4 (amended): reading / peeking the resolved fresh
entry yields the value `7`; during the in-flight refresh `read` yields
the new pending handle `3` and `peek` yields the no-value sentinel. -/
theorem claim4_amended_witness :
    readFn cfgW oneEntrySt 1 = (oneEntrySt, .value 7) ∧
    peekFn cfgW oneEntrySt 1 = (oneEntrySt, some 7) ∧
    readFn cfgW oneRefreshingSt 1 = (oneRefreshingSt, .handle 3) ∧
    peekFn cfgW oneRefreshingSt 1 = (oneRefreshingSt, none) :=
  ⟨((claim4_amended cfgW oneEntrySt 1 2
      { param := 1, promiseId := 0, expiry := 10, refresh := none }
      (by decide) (by decide) (by decide)).1 7 (by decide) (by decide)).1,
   ((claim4_amended cfgW oneEntrySt 1 2
      { param := 1, promiseId := 0, expiry := 10, refresh := none }
      (by decide) (by decide) (by decide)).1 7 (by decide) (by decide)).2,
   ((claim4_amended cfgW oneRefreshingSt 1 4
      { param := 1, promiseId := 3, expiry := 25, refresh := none }
      (by decide) (by decide) (by decide)).2 (by decide)).1,
   ((claim4_amended cfgW oneRefreshingSt 1 4
      { param := 1, promiseId := 3, expiry := 25, refresh := none }
      (by decide) (by decide) (by decide)).2 (by decide)).2⟩

/-- C4 is refuted by the code: on `oneStaleSt` the stale read returns
the pre-refresh value `7` and starts a refresh; but while that refresh
is still in flight (promise `3` pending, resumption task `5`
registered), the very next read returns the pending handle `3` and a
`peek` returns the no-value sentinel — neither continues to serve the
pre-refresh stale value `7`. -/
theorem claim4_counterexample :
    (readFn cfgW oneStaleSt 1).2 = .value 7 ∧
    (readFn cfgW oneStaleSt 1).1 = oneRefreshingSt ∧
    lookupA oneRefreshingSt.promises 3 = some .pending ∧
    lookupA oneRefreshingSt.tasks 5 = some (.refreshResume 1 1 3 0 2) ∧
    readFn cfgW oneRefreshingSt 1 = (oneRefreshingSt, .handle 3) ∧
    peekFn cfgW oneRefreshingSt 1 = (oneRefreshingSt, none) := by
  decide

end SwrCache

namespace SwrCache

/-- C2 (amended): the two *completion* continuations — the first-fetch
`then`/`catch` pair and the refresh resumption — compare their captured
epoch against the live epoch and, on a mismatch, perform no store
mutation and emit no notification (in particular a refresh started
before `clear()` never dispatches afterwards and never re-inserts or
deletes a store entry).  A *sweep step* resuming after `clear()`,
however, does not re-check the epoch and still mutates the store (see
the counterexample). -/
theorem claim2_amended (s : St) (tid : TaskId) (k : Key) (p : Param) (pid : PromiseId)
    (ep : Nat) (oldEid : EntryId)
    (hep : ep ≠ s.epoch) :
    (lookupA s.tasks tid = some (.fetchCont k p pid ep) →
      (runFetchContFn s tid).cacheMap = s.cacheMap ∧
      (runFetchContFn s tid).entries = s.entries ∧
      (runFetchContFn s tid).delivered = s.delivered ∧
      (runFetchContFn s tid).dispatched = s.dispatched) ∧
    (lookupA s.tasks tid = some (.refreshResume k p pid ep oldEid) →
      (runRefreshResumeFn s tid).cacheMap = s.cacheMap ∧
      (runRefreshResumeFn s tid).promises = s.promises ∧
      (runRefreshResumeFn s tid).delivered = s.delivered ∧
      (runRefreshResumeFn s tid).dispatched = s.dispatched) := by
  have hep' : ¬ (s.epoch = ep) := fun hh => hep hh.symm
  constructor
  · intro hx
    rcases hy : lookupA s.promises pid with _ | ps
    · simp [runFetchContFn, hx, hy]
    · rcases ps with _ | ov | err <;> simp [runFetchContFn, hx, hy, hep']
  · intro hx
    rcases hy : lookupA s.promises pid with _ | ps
    · rcases hz : lookupA s.entries oldEid with _ | oe <;>
        simp [runRefreshResumeFn, hx, hy, hz, hep']
    · rcases ps with _ | ov | err <;>
        rcases hz : lookupA s.entries oldEid with _ | oe <;>
          simp [runRefreshResumeFn, hx, hy, hz, hep']

/-- Witness for C2 (amended) on a concrete post-`clear()` state: the
refresh resumption `12` carries epoch `0` while the live epoch is `1`,
and running it changes neither the store nor the delivered log. -/
theorem claim2_amended_witness :
    (runRefreshResumeFn sweepAfterClearSt 12).cacheMap = sweepAfterClearSt.cacheMap ∧
    (runRefreshResumeFn sweepAfterClearSt 12).delivered = sweepAfterClearSt.delivered :=
  ⟨((claim2_amended sweepAfterClearSt 12 2 2 10 0 5 (by decide)).2 (by decide)).1,
   ((claim2_amended sweepAfterClearSt 12 2 2 10 0 5 (by decide)).2 (by decide)).2.2.1⟩

/-- C2 is refuted by the code: after `clear()` interrupts a sweep
(`clearedMidSweepSt`: live epoch `1`, store empty, sweep task `9` still
pending with captured epoch `0`), the very next sweep resumption
re-inserts a pending entry for key `2` into the cleared store and
invokes the producer — a mismatched-epoch asynchronous continuation
that mutates the store. -/
theorem claim2_counterexample :
    clearedMidSweepSt.epoch = 1 ∧
    clearedMidSweepSt.cacheMap = [] ∧
    lookupA clearedMidSweepSt.tasks 9 = some (.sweepResume [(2, 5)] 0 none) ∧
    sweepAfterClearSt.cacheMap = [(2, 11)] ∧
    lookupA sweepAfterClearSt.promises 10 = some .pending ∧
    sweepAfterClearSt.producerLog = [(0, 1), (3, 2), (6, 1), (10, 2)] := by
  decide

/-- C3: after `destroy()`, along *any* further execution, nothing is
ever delivered to an observer (including completions of producer calls
that were in flight at destruction time), the instance stays destroyed,
and every subsequent `read`/`prime` fails with the destroyed-instance
error while leaving the state — in particular the store — untouched. -/
theorem claim3_destroy (c : Config) (s0 s' : St) (p : Param)
    (h : Relation.ReflTransGen (Step c) (destroyFn s0) s') :
    s'.aborted = true ∧
    s'.delivered = (destroyFn s0).delivered ∧
    readFn c s' p = (s', .destroyedError) ∧
    primeFn c s' p = s' := by
  obtain ⟨h1, h2⟩ := steps_aborted c h rfl
  exact ⟨h1, h2, read_aborted c s' p h1, prime_aborted c s' p h1⟩

/-- Witness for C3: a fetch is in flight at destruction time; its
producer settles afterwards and its completion continuation runs, yet
the delivered log is unchanged and `read`/`prime` fail. -/
theorem claim3_destroy_witness :
    destroyedLateSt.aborted = true ∧
    destroyedLateSt.delivered = (destroyFn oneFlightSt).delivered ∧
    readFn cfgW destroyedLateSt 5 = (destroyedLateSt, .destroyedError) ∧
    primeFn cfgW destroyedLateSt 5 = destroyedLateSt :=
  claim3_destroy cfgW oneFlightSt destroyedLateSt 5
    (Relation.ReflTransGen.tail
      (Relation.ReflTransGen.single
        (Step.settle (destroyFn oneFlightSt) 0 (.fulfilled (some 7))))
      (Step.fetchCont (settleFn (destroyFn oneFlightSt) 0 (.fulfilled (some 7))) 1))

/-- C5: the sweep does select exactly the stale fulfilled entries
(snapshot `[(1, 2), (2, 5)]` on `twoStaleSt`) and is a no-op on an
empty store, but it is *not* sequential: because `#refreshEntry` does
not return the refresh it starts, the loop awaits `undefined`, and the
first resumption invokes the key-`2` producer while the key-`1` refresh
(promise `6`, resumption task `8`) is still unsettled — both refresh
producers are in flight at once. -/
theorem claim5_code_bug :
    staleSnapshot twoStaleSt = [(1, 2), (2, 5)] ∧
    lookupA sweepTwoInFlightSt.tasks 8 = some (.refreshResume 1 1 6 0 2) ∧
    lookupA sweepTwoInFlightSt.promises 6 = some .pending ∧
    sweepTwoInFlightSt.doneTasks = [] ∧
    pendingProducerCallsFor sweepTwoInFlightSt 1 = 1 ∧
    pendingProducerCallsFor sweepTwoInFlightSt 2 = 1 ∧
    sweepStartFn cfgW initSt = initSt := by
  decide

/-- C6 (amended): with the freshness window anchored at the *producer
invocation* (the entry's `expiry` is set to `now + ttlMs` when the
fetch or refresh starts, not when it resolves): every access strictly
before `expiry` returns the value unchanged with no notification and no
refresh; the first access at or after `expiry` returns the held value,
emits exactly one `stale` notification carrying it, and invokes the
producer exactly once; and any further access before that refresh
settles finds the pending handle and triggers nothing further. -/
theorem claim6_amended (c : Config) (s : St) (p : Param) (eid : EntryId) (e : EntryData)
    (v : Value)
    (hm : lookupA s.cacheMap (c.getKey p) = some eid)
    (he : lookupA s.entries eid = some e)
    (hp : lookupA s.promises e.promiseId = some (.fulfilled (some v)))
    (ha : s.aborted = false)
    (hr : e.refresh = none)
    (hpidf : e.promiseId ≠ s.nextId)
    (heidf : eid ≠ s.nextId + 1) :
    (s.now < e.expiry → readFn c s p = (s, .value v)) ∧
    (e.expiry ≤ s.now →
      (readFn c s p).2 = .value v ∧
      (readFn c s p).1.delivered = s.delivered ++ [.stale (c.getKey p) e.param v] ∧
      (readFn c s p).1.producerLog = s.producerLog ++ [(s.nextId, e.param)] ∧
      readFn c (readFn c s p).1 p = ((readFn c s p).1, .handle s.nextId)) := by
  constructor
  · intro hfresh
    exact read_fresh c s p eid e v hm he hp ha hfresh
  · intro hstale
    have hrd := read_stale c s p eid e v hm he hp ha hr hstale hpidf
    rw [hrd]
    refine ⟨rfl, ?_, ?_, ?_⟩
    · simp [refreshStartState, dispatch, ha]
    · simp [refreshStartState, dispatch]
    · have hm' : lookupA (refreshStartState c (dispatch s (.stale (c.getKey p) e.param v))
          (c.getKey p) eid e s.epoch).cacheMap (c.getKey p) = some (s.nextId + 1) := by
        simp [refreshStartState, lookupA_setA_self]
      have he' : lookupA (refreshStartState c (dispatch s (.stale (c.getKey p) e.param v))
          (c.getKey p) eid e s.epoch).entries (s.nextId + 1) =
          some ⟨e.param, s.nextId, s.now + c.ttlMs, none⟩ := by
        have hne : s.nextId + 1 ≠ eid := fun hh => heidf hh.symm
        simp [refreshStartState, lookupA_setA_ne _ _ _ _ hne, lookupA_setA_self]
      have hp' : lookupA (refreshStartState c (dispatch s (.stale (c.getKey p) e.param v))
          (c.getKey p) eid e s.epoch).promises s.nextId = some .pending := by
        simp [refreshStartState, lookupA_setA_self]
      have ha' : (refreshStartState c (dispatch s (.stale (c.getKey p) e.param v))
          (c.getKey p) eid e s.epoch).aborted = false := by
        simp [refreshStartState, ha]
      exact read_pending c _ p (s.nextId + 1)
        ⟨e.param, s.nextId, s.now + c.ttlMs, none⟩ hm' he' hp' ha'

/-- Witness for C6 (amended): on the concrete stale entry, the access
returns `7`, delivers exactly one `stale` carrying `7`, adds exactly
one producer call, and the immediate re-read yields the pending handle
with no further producer call. -/
theorem claim6_amended_witness :
    (readFn cfgW oneStaleSt 1).2 = .value 7 ∧
    (readFn cfgW oneStaleSt 1).1.delivered = oneStaleSt.delivered ++ [.stale 1 1 7] ∧
    (readFn cfgW oneStaleSt 1).1.producerLog = oneStaleSt.producerLog ++ [(3, 1)] ∧
    readFn cfgW (readFn cfgW oneStaleSt 1).1 1 = ((readFn cfgW oneStaleSt 1).1, .handle 3) :=
  (claim6_amended cfgW oneStaleSt 1 2
    { param := 1, promiseId := 0, expiry := 10, refresh := none } 7
    (by decide) (by decide) (by decide) (by decide) (by decide) (by decide) (by decide)).2
    (by decide)

/-- C6 is refuted by the code: the producer for key `1` was invoked at
`t = 0` (so `expiry = 10`) but only resolved at `t0 = 5`; the access at
`t = 12`, although `12 < t0 + T = 15`, already emits a `stale`
notification and invokes the producer a second time. -/
theorem claim6_counterexample :
    lateResolveSt.now = 12 ∧
    lateResolveSt.now < 5 + cfgW.ttlMs ∧
    lookupA lateResolveSt.entries 2 =
      some { param := 1, promiseId := 0, expiry := 10, refresh := none } ∧
    (readFn cfgW lateResolveSt 1).2 = .value 7 ∧
    (readFn cfgW lateResolveSt 1).1.delivered =
      [.missing 1 1, .resolved 1 1 (some 7), .stale 1 1 7] ∧
    (readFn cfgW lateResolveSt 1).1.producerLog = [(0, 1), (3, 1)] := by
  decide

end SwrCache

namespace SwrCache

/-- C7: if the very first fetch for a key fails (with the epoch
unchanged and the instance alive — here nothing intervenes between
fetch and completion), the entry is removed from the store, a
`rejected` notification carrying the producer error is delivered, the
caller's awaited handle is rejected with that original error, and the
next read of the same key finds no entry and invokes the producer from
scratch. -/
theorem claim7_first_fetch_failure (c : Config) (s : St) (p : Param) (err : ErrVal)
    (hm : lookupA s.cacheMap (c.getKey p) = none)
    (ha : s.aborted = false) :
    readFn c s p = (firstFetchState c s p, .handle s.nextId) ∧
    lookupA (afterFirstFetchFailure c s p err).cacheMap (c.getKey p) = none ∧
    (afterFirstFetchFailure c s p err).delivered =
      s.delivered ++ [.missing (c.getKey p) p, .rejected (c.getKey p) p err] ∧
    lookupA (afterFirstFetchFailure c s p err).promises s.nextId = some (.rejected err) ∧
    readFn c (afterFirstFetchFailure c s p err) p =
      (firstFetchState c (afterFirstFetchFailure c s p err) p,
        .handle (afterFirstFetchFailure c s p err).nextId) := by
  have h1 := read_miss c s p hm ha
  have heq : afterFirstFetchFailure c s p err =
      runFetchContFn (settleFn (firstFetchState c s p) s.nextId (.rejected err))
        (s.nextId + 1) := by
    unfold afterFirstFetchFailure
    rw [h1]
  have htask : lookupA (settleFn (firstFetchState c s p) s.nextId (.rejected err)).tasks
      (s.nextId + 1) = some (.fetchCont (c.getKey p) p s.nextId s.epoch) := by
    simp [settleFn, firstFetchState, lookupA_setA_self]
  have hprom : lookupA (settleFn (firstFetchState c s p) s.nextId (.rejected err)).promises
      s.nextId = some (.rejected err) := by
    simp [settleFn, lookupA_setA_self]
  have hrun : afterFirstFetchFailure c s p err =
      dispatch
        { settleFn (firstFetchState c s p) s.nextId (.rejected err) with
          tasks := removeA (settleFn (firstFetchState c s p) s.nextId (.rejected err)).tasks
            (s.nextId + 1),
          cacheMap := removeA
            (settleFn (firstFetchState c s p) s.nextId (.rejected err)).cacheMap
            (c.getKey p) }
        (.rejected (c.getKey p) p err) := by
    rw [heq]
    simp [runFetchContFn, htask, hprom, settleFn, firstFetchState, ha, lookupA_setA_self]
  have hmap : lookupA (afterFirstFetchFailure c s p err).cacheMap (c.getKey p) = none := by
    rw [hrun]
    simp [settleFn, firstFetchState, lookupA_removeA_self]
  have hab : (afterFirstFetchFailure c s p err).aborted = false := by
    rw [hrun]
    simp [settleFn, firstFetchState, ha]
  refine ⟨h1, hmap, ?_, ?_, ?_⟩
  · rw [hrun]
    simp [dispatch, settleFn, firstFetchState, ha]
  · rw [hrun]
    simp [settleFn, lookupA_setA_self]
  · exact read_miss c (afterFirstFetchFailure c s p err) p hmap hab

/-- Witness for C7 at the initial state: the failed first fetch of key
`1` with error `42` evicts the entry, delivers `missing` then
`rejected 42`, leaves the caller's handle rejected with `42`, and the
following read invokes the producer again. -/
theorem claim7_first_fetch_failure_witness :
    readFn cfgW initSt 1 = (firstFetchState cfgW initSt 1, .handle 0) ∧
    lookupA (afterFirstFetchFailure cfgW initSt 1 42).cacheMap 1 = none ∧
    (afterFirstFetchFailure cfgW initSt 1 42).delivered =
      [.missing 1 1, .rejected 1 1 42] ∧
    lookupA (afterFirstFetchFailure cfgW initSt 1 42).promises 0 = some (.rejected 42) ∧
    readFn cfgW (afterFirstFetchFailure cfgW initSt 1 42) 1 =
      (firstFetchState cfgW (afterFirstFetchFailure cfgW initSt 1 42) 1,
        .handle (afterFirstFetchFailure cfgW initSt 1 42).nextId) :=
  claim7_first_fetch_failure cfgW initSt 1 42 (by decide) (by decide)

/-- C9: dispatching a `state:prime` event at the cache for an existing
entry that is fulfilled with a defined value — even one that is still
fresh (`now < expiry`) — re-dispatches a `resolved` notification
carrying the cached value and unconditionally starts a refresh: one new
producer invocation, and the store entry replaced by a fresh pending
one.  This is a public-surface refresh path not described by the
documented API. -/
theorem claim9_state_prime (c : Config) (s : St) (p : Param) (eid : EntryId) (e : EntryData)
    (v : Value)
    (hm : lookupA s.cacheMap (c.getKey p) = some eid)
    (he : lookupA s.entries eid = some e)
    (hp : lookupA s.promises e.promiseId = some (.fulfilled (some v)))
    (ha : s.aborted = false)
    (hr : e.refresh = none)
    (_hfresh : s.now < e.expiry)
    (heidf : eid ≠ s.nextId + 1) :
    statePrimeFn c s p =
      refreshStartState c (dispatch s (.resolved (c.getKey p) e.param (some v)))
        (c.getKey p) eid e s.epoch ∧
    (statePrimeFn c s p).delivered =
      s.delivered ++ [.resolved (c.getKey p) e.param (some v)] ∧
    (statePrimeFn c s p).producerLog = s.producerLog ++ [(s.nextId, e.param)] ∧
    lookupA (statePrimeFn c s p).cacheMap (c.getKey p) = some (s.nextId + 1) ∧
    lookupA (statePrimeFn c s p).entries (s.nextId + 1) =
      some ⟨e.param, s.nextId, s.now + c.ttlMs, none⟩ ∧
    lookupA (statePrimeFn c s p).promises s.nextId = some .pending := by
  have he' : lookupA (dispatch s (.resolved (c.getKey p) e.param (some v))).entries eid =
      some e := he
  have hstep := refreshEntry_start c (dispatch s (.resolved (c.getKey p) e.param (some v)))
    (c.getKey p) eid e s.epoch he' hr
  have hmain : statePrimeFn c s p =
      refreshStartState c (dispatch s (.resolved (c.getKey p) e.param (some v)))
        (c.getKey p) eid e s.epoch := by
    simp [statePrimeFn, getEntryFn, ha, hm, he, hp, hstep]
  have hne : s.nextId + 1 ≠ eid := fun hh => heidf hh.symm
  refine ⟨hmain, ?_, ?_, ?_, ?_, ?_⟩ <;> rw [hmain]
  · simp [refreshStartState, dispatch, ha]
  · simp [refreshStartState, dispatch]
  · simp [refreshStartState, lookupA_setA_self]
  · simp [refreshStartState, lookupA_setA_ne _ _ _ _ hne, lookupA_setA_self]
  · simp [refreshStartState, lookupA_setA_self]

/-- Witness for C9: on the concrete resolved *fresh* entry (clock `0`,
expiry `10`), the `state:prime` listener re-delivers `resolved 7` and
invokes the producer again (new pending promise `3`). -/
theorem claim9_state_prime_witness :
    (statePrimeFn cfgW oneEntrySt 1).delivered =
      oneEntrySt.delivered ++ [.resolved 1 1 (some 7)] ∧
    (statePrimeFn cfgW oneEntrySt 1).producerLog = oneEntrySt.producerLog ++ [(3, 1)] ∧
    lookupA (statePrimeFn cfgW oneEntrySt 1).promises 3 = some .pending :=
  ⟨(claim9_state_prime cfgW oneEntrySt 1 2 ⟨1, 0, 10, none⟩ 7 (by decide) (by decide)
      (by decide) (by decide) (by decide) (by decide) (by decide)).2.1,
   (claim9_state_prime cfgW oneEntrySt 1 2 ⟨1, 0, 10, none⟩ 7 (by decide) (by decide)
      (by decide) (by decide) (by decide) (by decide) (by decide)).2.2.1,
   (claim9_state_prime cfgW oneEntrySt 1 2 ⟨1, 0, 10, none⟩ 7 (by decide) (by decide)
      (by decide) (by decide) (by decide) (by decide) (by decide)).2.2.2.2.2⟩

end SwrCache
